import Mathlib

/-!
Shallow embedding of src/logger_config/core.py (module logger_config.core).

The module exposes setup_logger(config), the operation the specification calls
initialize(): it invokes a retention cleaner, merges the caller configuration
over DEFAULT_CONFIG, validates script_name, resets the global logger, creates
the dated log directory, attaches a file sink and optionally a console sink,
applies per-namespace severity overrides, and returns the logger together with
a config-info record.

Modelling conventions:
- Python dicts are association lists of (key, Value); dict.copy() is shallow,
  so the disabled_loggers value is modelled as a reference (Value.dictRef)
  into a heap of name-to-level tables, which makes aliasing observable.
- Side effects (clean_logs, setLevel, handlers.clear, os.makedirs, opening the
  FileHandler, addHandler, per-namespace setLevel) are recorded as an ordered
  effect trace; the global logger is a LoggerState threaded through calls.
- clean_logs is an external collaborator; whether it raises is a Boolean input.
- In the Python source the first statement of setup_logger reads the local
  variable cfg before cfg is assigned (cfg is only bound two lines later), so
  whenever the caller supplies a log_path key the call raises
  UnboundLocalError; the embedding reproduces this.
- Paths are joined in the POSIX style of os.path.join with separator "/",
  matching the path shapes the specification writes.
- datetime.strftime is modelled for the directives the module can meet
  (%Y %m %d %H %M %S), zero-padded exactly as in Python.
- Wall-clock time is an explicit Timestamp argument.
-/

/-- Python logging severity constants (logging.DEBUG etc.). -/
def DEBUG : Nat := 10

def INFO : Nat := 20

def WARNING : Nat := 30

def ERROR : Nat := 40

/-- A Python value as it appears in the configuration dict: None, a string,
a bool, an int severity, or a reference to a (mutable) nested dict. -/
inductive Value where
  | none
  | str (s : String)
  | bool (b : Bool)
  | nat (n : Nat)
  | dictRef (r : Nat)
  deriving DecidableEq, Repr

/-- Python truthiness of a configuration value. -/
def Value.truthy : Value → Bool
  | Value.none => false
  | Value.str s => !s.isEmpty
  | Value.bool b => b
  | Value.nat n => n != 0
  | Value.dictRef _ => true

/-- Coerce a value to the string the source would use it as. -/
def Value.asStr : Value → String
  | Value.str s => s
  | _ => ""

/-- Coerce a value to the severity number the source would use it as. -/
def Value.asNat : Value → Nat
  | Value.nat n => n
  | _ => 0

/-- A Python dict with string keys, in insertion order. -/
abbrev Dict := List (String × Value)

/-- dict lookup (d[k] / d.get(k)). -/
def dictLookup : Dict → String → Option Value
  | [], _ => Option.none
  | (k', v) :: rest, k => if k' = k then some v else dictLookup rest k

/-- Python membership test (k in d). -/
def dictHasKey (d : Dict) (k : String) : Bool :=
  (dictLookup d k).isSome

/-- dict assignment d[k] = v: replace in place when the key exists (keeping
its position), append otherwise — Python insertion-order semantics. -/
def dictSet : Dict → String → Value → Dict
  | [], k, v => [(k, v)]
  | (k', v') :: rest, k, v =>
      if k' = k then (k', v) :: rest else (k', v') :: dictSet rest k v

/-- dict.update(other): assign every entry of other, left to right. -/
def dictUpdate : Dict → Dict → Dict
  | base, [] => base
  | base, (k, v) :: rest => dictUpdate (dictSet base k v) rest

/-- Membership of a key in an optional caller config. -/
def optHasKey (config : Option Dict) (k : String) : Bool :=
  match config with
  | Option.none => false
  | some d => dictHasKey d k

/-- Heap of nested dicts (logger name to severity) addressed by Value.dictRef;
this makes the shallow-copy aliasing of disabled_loggers observable. -/
abbrev DLHeap := Nat → List (String × Nat)

/-- Assignment inside a nested dict (same Python semantics as dictSet). -/
def setEntry : List (String × Nat) → String → Nat → List (String × Nat)
  | [], k, v => [(k, v)]
  | (k', v') :: rest, k, v =>
      if k' = k then (k', v) :: rest else (k', v') :: setEntry rest k v

/-- Mutation of the nested dict behind reference r: every holder of r
observes the update. -/
def heapSet (h : DLHeap) (r : Nat) (k : String) (lvl : Nat) : DLHeap :=
  fun rx => if rx = r then setEntry (h rx) k lvl else h rx

/-- The reference DEFAULT_CONFIG holds for its disabled_loggers dict. -/
def defaultDLRef : Nat := 0

/-- The disabled_loggers dict literal of DEFAULT_CONFIG (the duplicate PIL and
urllib3 entries of the Python literal collapse, later occurrences winning, so
the runtime dict has each key once, in first-insertion order). -/
def defaultDisabledLoggers : List (String × Nat) :=
  [("PIL", WARNING), ("urllib3", WARNING), ("fsspec", WARNING),
   ("requests", WARNING), ("chardet", WARNING), ("vipshome", WARNING),
   ("pyvips", WARNING)]

/-- The heap at module load: reference 0 holds the default disabled_loggers. -/
def heap0 : DLHeap :=
  fun r => if r = 0 then defaultDisabledLoggers else []

/-- DEFAULT_CONFIG, parametrised by the value os.getenv LOG_PATH returned at
module load time (after dotenv.load_dotenv); the dict literal is evaluated
once, so log_path is fixed to that value. -/
def DEFAULT_CONFIG (envLoad : Option String) : Dict :=
  [("script_name", Value.none),
   ("console_enabled", Value.bool true),
   ("log_path", Value.str (envLoad.getD "logs")),
   ("date_format", Value.str "%Y%m%d"),
   ("time_format", Value.str "%H"),
   ("file_format", Value.str "%M%S"),
   ("encoding", Value.str "utf-8"),
   ("formatter", Value.str "%(asctime)s - %(levelname)s - %(message)s"),
   ("file_level", Value.nat DEBUG),
   ("console_level", Value.nat INFO),
   ("disabled_loggers", Value.dictRef defaultDLRef)]

/-- A wall-clock instant (datetime.now()). -/
structure Timestamp where
  year : Nat
  month : Nat
  day : Nat
  hour : Nat
  minute : Nat
  second : Nat
  deriving DecidableEq, Repr

/-- Zero-pad to two digits, as Python strftime does for %m %d %H %M %S. -/
def pad2 (n : Nat) : String :=
  if n < 10 then "0" ++ toString n else toString n

/-- Zero-pad to four digits, as Python strftime does for %Y. -/
def pad4 (n : Nat) : String :=
  if n < 10 then "000" ++ toString n
  else if n < 100 then "00" ++ toString n
  else if n < 1000 then "0" ++ toString n
  else toString n

/-- strftime over the format characters, supporting the directives the module
uses; other characters are copied literally. -/
def strftimeChars (t : Timestamp) : List Char → String
  | [] => ""
  | '%' :: 'Y' :: rest => pad4 t.year ++ strftimeChars t rest
  | '%' :: 'm' :: rest => pad2 t.month ++ strftimeChars t rest
  | '%' :: 'd' :: rest => pad2 t.day ++ strftimeChars t rest
  | '%' :: 'H' :: rest => pad2 t.hour ++ strftimeChars t rest
  | '%' :: 'M' :: rest => pad2 t.minute ++ strftimeChars t rest
  | '%' :: 'S' :: rest => pad2 t.second ++ strftimeChars t rest
  | c :: rest => String.mk [c] ++ strftimeChars t rest

/-- datetime.strftime(fmt). -/
def strftime (t : Timestamp) (fmt : String) : String :=
  strftimeChars t fmt.data

/-- str.startswith, over the character lists (kernel-reducible). -/
def strStartsWith (s p : String) : Bool :=
  p.data.isPrefixOf s.data

/-- str.endswith, over the character lists (kernel-reducible). -/
def strEndsWith (s p : String) : Bool :=
  p.data.reverse.isPrefixOf s.data.reverse

/-- os.path.join of two components, POSIX flavour. -/
def joinOne (a b : String) : String :=
  if strStartsWith b "/" then b
  else if a = "" then b
  else if strEndsWith a "/" then a ++ b
  else a ++ "/" ++ b

/-- os.path.isabs, POSIX flavour. -/
def isAbs (p : String) : Bool :=
  strStartsWith p "/"

/-- The kind of a logging handler: FileHandler(path, encoding) or
StreamHandler (console). -/
inductive HandlerKind where
  | file (path : String) (encoding : String)
  | console
  deriving DecidableEq, Repr

/-- A logging handler with its severity threshold and formatter template. -/
structure Handler where
  kind : HandlerKind
  level : Nat
  fmt : String
  deriving DecidableEq, Repr

/-- The observable side effects of setup_logger, in program order. -/
inductive Effect where
  | cleanLogs (root : String)
  | setLevel (lvl : Nat)
  | clearHandlers
  | makedirs (path : String)
  | openFileHandler (path : String) (encoding : String) (lvl : Nat)
  | addHandler (h : Handler)
  | setLoggerLevel (namespaceName : String) (lvl : Nat)
  deriving DecidableEq, Repr

/-- Whether an effect opens the file sink. -/
def Effect.isOpenFile : Effect → Bool
  | Effect.openFileHandler _ _ _ => true
  | _ => false

/-- Whether an effect is a directory creation for path p. -/
def isMakedirsFor (p : String) : Effect → Bool
  | Effect.makedirs q => p == q
  | _ => false

/-- Some makedirs for p appears strictly before the first file-sink open. -/
def mkdirBefore (p : String) (effs : List Effect) : Bool :=
  (effs.takeWhile (fun e => !e.isOpenFile)).any (isMakedirsFor p)

/-- The handlers attached (logger.addHandler) during one run, in order. -/
def attachedSinks (effs : List Effect) : List Handler :=
  effs.filterMap (fun e =>
    match e with
    | Effect.addHandler h => some h
    | _ => Option.none)

/-- The global logging.getLogger() object: its level and handler list. -/
structure LoggerState where
  level : Nat
  handlers : List Handler
  deriving DecidableEq, Repr

/-- The config_info dict setup_logger returns (the spec's ResolvedRunInfo). -/
structure SetupInfo where
  log_file : String
  log_dir : String
  config : Dict
  deriving DecidableEq, Repr

/-- The exceptions a setup_logger call can raise. UnboundLocalError comes from
reading the local cfg before assignment; the ValueError on a missing
script_name is the spec's ConfigurationError; cleanerError stands for any
exception escaping the clean_logs collaborator. -/
inductive PyErr where
  | unboundLocalCfg
  | configError
  | cleanerError
  deriving DecidableEq, Repr

deriving instance DecidableEq for Except

/-- Outcome of one setup_logger call: its effect trace, the final global
logger state, and either the returned info or the exception raised. -/
structure RunOutcome where
  effects : List Effect
  state : LoggerState
  result : Except PyErr SetupInfo
  deriving DecidableEq, Repr

/-- The guard of the first statement: the conditional expression
cfg[log_path] if config and log_path in config else DEFAULT_CONFIG[log_path]
evaluates cfg — a local assigned only later — exactly when config is truthy
(a non-empty dict) and contains log_path, raising UnboundLocalError there. -/
def cleanerArgCrashes : Option Dict → Bool
  | Option.none => false
  | some d => !d.isEmpty && dictHasKey d "log_path"

/-- The root actually passed to clean_logs on the non-crashing branch:
DEFAULT_CONFIG's log_path. -/
def retentionRoot (envLoad : Option String) : String :=
  ((dictLookup (DEFAULT_CONFIG envLoad) "log_path").getD Value.none).asStr

/-- cfg = DEFAULT_CONFIG.copy(); if config: cfg.update(config). The copy is
shallow: values (in particular the disabled_loggers dictRef) are shared. -/
def mergedConfig (envLoad : Option String) (config : Option Dict) : Dict :=
  match config with
  | Option.none => DEFAULT_CONFIG envLoad
  | some d => if d.isEmpty then DEFAULT_CONFIG envLoad
              else dictUpdate (DEFAULT_CONFIG envLoad) d

/-- Read a string-valued option of a merged config. -/
def cfgStr (cfg : Dict) (k : String) : String :=
  ((dictLookup cfg k).getD Value.none).asStr

/-- Read a severity-valued option of a merged config. -/
def cfgNat (cfg : Dict) (k : String) : Nat :=
  ((dictLookup cfg k).getD Value.none).asNat

/-- log_dir = os.path.join(log_path, script_name, strftime(date_format),
strftime(time_format)). -/
def logDirOf (cfg : Dict) (now : Timestamp) : String :=
  joinOne (joinOne (joinOne (cfgStr cfg "log_path") (cfgStr cfg "script_name"))
      (strftime now (cfgStr cfg "date_format")))
    (strftime now (cfgStr cfg "time_format"))

/-- log_file = os.path.join(log_dir, strftime(file_format) + ".log"). -/
def logFileOf (cfg : Dict) (now : Timestamp) : String :=
  joinOne (logDirOf cfg now) (strftime now (cfgStr cfg "file_format") ++ ".log")

/-- The disabled_loggers entries the final loop iterates over: the nested
dict behind the merged config's reference. -/
def dlEntries (heap : DLHeap) (cfg : Dict) : List (String × Nat) :=
  match dictLookup cfg "disabled_loggers" with
  | some (Value.dictRef r) => heap r
  | _ => []

/-- The tail of setup_logger once validation has passed: reset the global
logger, create directories, open and attach the file sink, construct the
console sink and attach it when console_enabled, apply disabled_loggers,
return logger and config_info. Mirrors the source line by line. -/
def successOutcome (envLoad : Option String) (heap : DLHeap)
    (config : Option Dict) (now : Timestamp) : RunOutcome :=
  let cfg := mergedConfig envLoad config
  let logPath := cfgStr cfg "log_path"
  let log_dir := logDirOf cfg now
  let log_file := logFileOf cfg now
  let fileH : Handler :=
    { kind := HandlerKind.file log_file (cfgStr cfg "encoding"),
      level := cfgNat cfg "file_level", fmt := cfgStr cfg "formatter" }
  let consoleH : Handler :=
    { kind := HandlerKind.console,
      level := cfgNat cfg "console_level", fmt := cfgStr cfg "formatter" }
  let consoleOn := ((dictLookup cfg "console_enabled").getD Value.none).truthy
  { effects :=
      [Effect.cleanLogs (retentionRoot envLoad),
       Effect.setLevel DEBUG,
       Effect.clearHandlers,
       Effect.makedirs logPath,
       Effect.makedirs log_dir,
       Effect.openFileHandler log_file (cfgStr cfg "encoding")
         (cfgNat cfg "file_level"),
       Effect.addHandler fileH]
      ++ (if consoleOn then [Effect.addHandler consoleH] else [])
      ++ (dlEntries heap cfg).map (fun p => Effect.setLoggerLevel p.1 p.2),
    state := { level := DEBUG,
               handlers := fileH :: (if consoleOn then [consoleH] else []) },
    result := Except.ok { log_file := log_file, log_dir := log_dir,
                          config := cfg } }

/-- setup_logger(config) — the specification's initialize(). Inputs beyond
the caller config: the LOG_PATH environment value observed at module load,
the nested-dict heap, the current wall-clock time, whether clean_logs
returns normally, and the global logger state before the call. -/
def setup_logger (envLoad : Option String) (heap : DLHeap)
    (config : Option Dict) (now : Timestamp) (cleanerOk : Bool)
    (st : LoggerState) : RunOutcome :=
  if cleanerArgCrashes config then
    { effects := [], state := st, result := Except.error PyErr.unboundLocalCfg }
  else if !cleanerOk then
    { effects := [Effect.cleanLogs (retentionRoot envLoad)], state := st,
      result := Except.error PyErr.cleanerError }
  else if !((dictLookup (mergedConfig envLoad config) "script_name").getD
      Value.none).truthy then
    { effects := [Effect.cleanLogs (retentionRoot envLoad)], state := st,
      result := Except.error PyErr.configError }
  else
    successOutcome envLoad heap config now

/-- Project the returned info out of a run outcome (meaningful on success). -/
def infoOf (o : RunOutcome) : SetupInfo :=
  match o.result with
  | Except.ok i => i
  | Except.error _ => { log_file := "", log_dir := "", config := [] }

/-- The hardcoded working directory the module insists on at import time. -/
def WORKING_DIR : String := "D:\\1VSCODE\\GlowToolBox"

/-- Outcome of the module-level working-directory check. -/
inductive ImportResult where
  | ok
  | systemExit
  deriving DecidableEq, Repr

/-- Whether os.chdir was attempted, and how the import ended. -/
structure ImportOutcome where
  chdirAttempted : Bool
  result : ImportResult
  deriving DecidableEq, Repr

/-- The module-level block: if the current working directory differs from
WORKING_DIR, attempt os.chdir(WORKING_DIR); on any failure raise SystemExit,
so the rest of the module (including setup_logger) is never reached. -/
def moduleChdirCheck (cwd : String) (chdirOk : Bool) : ImportOutcome :=
  if cwd = WORKING_DIR then
    { chdirAttempted := false, result := ImportResult.ok }
  else if chdirOk then
    { chdirAttempted := true, result := ImportResult.ok }
  else
    { chdirAttempted := true, result := ImportResult.systemExit }

/-! Concrete fixtures used when instantiating the theorems below. -/

/-- The wall-clock instant 2024-03-05 14:22:07 of the worked example. -/
def t0 : Timestamp :=
  { year := 2024, month := 3, day := 5, hour := 14, minute := 22, second := 7 }

/-- A pre-call logger state with a non-DEBUG level and no handlers. -/
def st0 : LoggerState := { level := WARNING, handlers := [] }

/-- A pre-call logger state already holding a stale handler. -/
def stStale : LoggerState :=
  { level := INFO,
    handlers := [{ kind := HandlerKind.console, level := ERROR, fmt := "old" }] }

/-- The spec's worked-example config. -/
def cfgSvc : Dict :=
  [("script_name", Value.str "svc"), ("console_enabled", Value.bool false)]

/-- A valid config that also supplies log_path. -/
def cfgSupplyingLogPath : Dict :=
  [("script_name", Value.str "s"), ("log_path", Value.str "mylogs")]

/-- Another config supplying log_path. -/
def cfgSupplyingLogPath2 : Dict :=
  [("script_name", Value.str "t"), ("log_path", Value.str "elsewhere")]

/-- A config supplying log_path but no script_name. -/
def cfgOnlyLogPath : Dict := [("log_path", Value.str "x")]

/-- A config without script_name and without log_path. -/
def cfgNoName : Dict := [("console_enabled", Value.bool true)]

/-- A config whose script_name is the empty string. -/
def cfgEmptyName : Dict := [("script_name", Value.str "")]

/-- Minimal valid configs for the re-initialization scenario. -/
def cfgAlpha : Dict := [("script_name", Value.str "alpha")]

def cfgBeta : Dict :=
  [("script_name", Value.str "beta"), ("console_enabled", Value.bool false)]

def cfgC6 : Dict := [("script_name", Value.str "c6")]

def cfgC8 : Dict := [("script_name", Value.str "c8")]

def cfgX9 : Dict := [("script_name", Value.str "x9")]

/-- A valid config carrying an unrecognized extra key. -/
def cfgBogus : Dict :=
  [("script_name", Value.str "ws"), ("bogus", Value.bool true)]

/-- A valid config supplying its own disabled_loggers dict (reference 1). -/
def cfgWholesale : Dict :=
  [("script_name", Value.str "wh"), ("disabled_loggers", Value.dictRef 1)]

/-! Association-list lemmas about the dict model. -/

theorem dictSet_lookup_self (d : Dict) (k : String) (v : Value) :
    dictLookup (dictSet d k v) k = some v := by
  induction d with
  | nil => simp [dictSet, dictLookup]
  | cons p rest ih =>
      obtain ⟨k1, v1⟩ := p
      by_cases h : k1 = k
      · subst h; simp [dictSet, dictLookup]
      · simp [dictSet, dictLookup, h, ih]

theorem dictSet_lookup_ne (d : Dict) (k1 k2 : String) (v : Value)
    (h : k1 ≠ k2) :
    dictLookup (dictSet d k1 v) k2 = dictLookup d k2 := by
  induction d with
  | nil => simp [dictSet, dictLookup, h]
  | cons p rest ih =>
      obtain ⟨ka, va⟩ := p
      by_cases hk : ka = k1
      · subst hk; simp [dictSet, dictLookup, h]
      · simp [dictSet, dictLookup, hk, ih]

theorem dictLookup_eq_none_of_not_mem (d : Dict) (k : String)
    (h : k ∉ d.map Prod.fst) : dictLookup d k = Option.none := by
  induction d with
  | nil => rfl
  | cons p rest ih =>
      obtain ⟨k1, v1⟩ := p
      simp only [List.map_cons, List.mem_cons, not_or] at h
      obtain ⟨h1, h2⟩ := h
      simp [dictLookup, Ne.symm h1, ih h2]

theorem dictUpdate_lookup_of_not_has (d : Dict) (k : String) :
    ∀ base : Dict, dictHasKey d k = false →
      dictLookup (dictUpdate base d) k = dictLookup base k := by
  induction d with
  | nil => intro base _; rfl
  | cons p rest ih =>
      obtain ⟨k1, v1⟩ := p
      intro base h
      by_cases hk : k1 = k
      · exfalso; subst hk; simp [dictHasKey, dictLookup] at h
      · have hrest : dictHasKey rest k = false := by
          simpa [dictHasKey, dictLookup, hk] using h
        simp only [dictUpdate]
        rw [ih (dictSet base k1 v1) hrest, dictSet_lookup_ne _ _ _ _ hk]

theorem dictUpdate_lookup (d : Dict) (k : String) :
    ∀ base : Dict, (d.map Prod.fst).Nodup →
      dictLookup (dictUpdate base d) k =
        if dictHasKey d k then dictLookup d k else dictLookup base k := by
  induction d with
  | nil => intro base _; simp [dictUpdate, dictHasKey, dictLookup]
  | cons p rest ih =>
      obtain ⟨k1, v1⟩ := p
      intro base hnd
      simp only [List.map_cons, List.nodup_cons] at hnd
      obtain ⟨hnotmem, hnd2⟩ := hnd
      simp only [dictUpdate]
      by_cases hk : k1 = k
      · subst hk
        have hrest : dictHasKey rest k1 = false := by
          rw [dictHasKey, dictLookup_eq_none_of_not_mem rest k1 hnotmem]; rfl
        rw [dictUpdate_lookup_of_not_has rest k1 (dictSet base k1 v1) hrest,
          dictSet_lookup_self]
        simp [dictHasKey, dictLookup]
      · rw [ih (dictSet base k1 v1) hnd2, dictSet_lookup_ne _ _ _ _ hk]
        simp [dictHasKey, dictLookup, hk]

/-! Structural lemmas about setup_logger runs. -/

theorem successOutcome_result (envLoad : Option String) (heap : DLHeap)
    (config : Option Dict) (now : Timestamp) :
    (successOutcome envLoad heap config now).result =
      Except.ok { log_file := logFileOf (mergedConfig envLoad config) now,
                  log_dir := logDirOf (mergedConfig envLoad config) now,
                  config := mergedConfig envLoad config } := rfl

/-- A run that returns info did not crash on the cleaner argument, had a
normal cleaner, passed validation, equals the success outcome, and returned
exactly the computed paths with the merged config. -/
theorem setup_ok_shape (envLoad : Option String) (heap : DLHeap)
    (config : Option Dict) (now : Timestamp) (cleanerOk : Bool)
    (st : LoggerState) (info : SetupInfo)
    (h : (setup_logger envLoad heap config now cleanerOk st).result =
      Except.ok info) :
    cleanerArgCrashes config = false ∧ cleanerOk = true ∧
      ((dictLookup (mergedConfig envLoad config) "script_name").getD
        Value.none).truthy = true ∧
      setup_logger envLoad heap config now cleanerOk st =
        successOutcome envLoad heap config now ∧
      info = { log_file := logFileOf (mergedConfig envLoad config) now,
               log_dir := logDirOf (mergedConfig envLoad config) now,
               config := mergedConfig envLoad config } := by
  by_cases h1 : cleanerArgCrashes config = true
  · rw [setup_logger] at h; simp [h1] at h
  · by_cases h2 : cleanerOk = true
    · by_cases h3 : ((dictLookup (mergedConfig envLoad config) "script_name").getD
          Value.none).truthy = true
      · have heq : setup_logger envLoad heap config now cleanerOk st =
            successOutcome envLoad heap config now := by
          rw [setup_logger]
          simp [h1, h2, h3]
        refine ⟨by simpa using h1, h2, h3, heq, ?_⟩
        rw [heq, successOutcome_result] at h
        exact (Except.ok.inj h).symm
      · rw [setup_logger] at h
        simp [h1, h2, h3] at h
    · rw [setup_logger] at h
      rw [Bool.not_eq_true] at h2
      simp [h1, h2] at h

theorem attachedSinks_append (l1 l2 : List Effect) :
    attachedSinks (l1 ++ l2) = attachedSinks l1 ++ attachedSinks l2 := by
  simp [attachedSinks]

theorem attachedSinks_setLoggerLevels (l : List (String × Nat)) :
    attachedSinks (l.map (fun p => Effect.setLoggerLevel p.1 p.2)) = [] := by
  induction l with
  | nil => rfl
  | cons p rest ih => simp [attachedSinks, List.filterMap_cons]

/-- In the success outcome the final handler list is exactly the handlers the
run attached. -/
theorem attachedSinks_successOutcome (envLoad : Option String) (heap : DLHeap)
    (config : Option Dict) (now : Timestamp) :
    attachedSinks (successOutcome envLoad heap config now).effects =
      (successOutcome envLoad heap config now).state.handlers := by
  rw [successOutcome]
  by_cases hc : ((dictLookup (mergedConfig envLoad config) "console_enabled").getD
      Value.none).truthy = true
  · simp [hc, attachedSinks_append, attachedSinks_setLoggerLevels, attachedSinks,
      List.filterMap_cons]
  · simp [hc, attachedSinks_append, attachedSinks_setLoggerLevels, attachedSinks,
      List.filterMap_cons]

/-- In the success outcome both makedirs calls precede the file-sink open. -/
theorem mkdirBefore_successOutcome (envLoad : Option String) (heap : DLHeap)
    (config : Option Dict) (now : Timestamp) :
    mkdirBefore (cfgStr (mergedConfig envLoad config) "log_path")
      (successOutcome envLoad heap config now).effects = true ∧
    mkdirBefore (logDirOf (mergedConfig envLoad config) now)
      (successOutcome envLoad heap config now).effects = true := by
  rw [successOutcome]
  constructor <;>
    simp [mkdirBefore, Effect.isOpenFile, isMakedirsFor, List.takeWhile_cons,
      List.any_cons]

/-- DEFAULT_CONFIG's log_path entry is the module-load environment value. -/
theorem DEFAULT_CONFIG_log_path (envLoad : Option String) :
    dictLookup (DEFAULT_CONFIG envLoad) "log_path" =
      some (Value.str (envLoad.getD "logs")) := by
  simp [DEFAULT_CONFIG, dictLookup]

/-- DEFAULT_CONFIG's disabled_loggers entry is the shared reference 0. -/
theorem DEFAULT_CONFIG_disabled_loggers (envLoad : Option String) :
    dictLookup (DEFAULT_CONFIG envLoad) "disabled_loggers" =
      some (Value.dictRef defaultDLRef) := by
  simp [DEFAULT_CONFIG, dictLookup]

/-- Looking up a key the caller did not supply in the merged config gives
DEFAULT_CONFIG's entry. -/
theorem mergedConfig_lookup_of_not_supplied (envLoad : Option String)
    (config : Option Dict) (k : String) (hno : optHasKey config k = false) :
    dictLookup (mergedConfig envLoad config) k =
      dictLookup (DEFAULT_CONFIG envLoad) k := by
  cases config with
  | none => rfl
  | some d =>
      rw [optHasKey] at hno
      rw [mergedConfig]
      by_cases he : d.isEmpty
      · simp [he]
      · simp only [he, if_false]
        exact dictUpdate_lookup_of_not_has d k (DEFAULT_CONFIG envLoad) hno

/-! The claims. -/

/-- C1: the claim says a call whose config supplies a log_path key invokes
the retention cleaner with that supplied root. In the source the cleaner
argument expression reads the local cfg before its assignment, so such a
call raises UnboundLocalError and the cleaner is never invoked (the effect
trace is empty); a call omitting log_path does invoke the cleaner, with the
default root, before anything else, as the claim's other half says. -/
theorem C1_cleaner_unbound_local :
    setup_logger Option.none heap0 (some cfgSupplyingLogPath) t0 true st0 =
      { effects := [], state := st0,
        result := Except.error PyErr.unboundLocalCfg } ∧
    (setup_logger Option.none heap0 (some cfgAlpha) t0 true st0).effects.head? =
      some (Effect.cleanLogs "logs") :=
  ⟨by decide, by decide⟩

/-- C2 counterexample: a config supplying only log_path leaves the merged
script_name absent (None), yet the call raises UnboundLocalError — not the
ConfigurationError the claim promises for every such configuration. -/
theorem C2_counterexample :
    dictLookup (mergedConfig Option.none (some cfgOnlyLogPath)) "script_name" =
      some Value.none ∧
    (setup_logger Option.none heap0 (some cfgOnlyLogPath) t0 true st0).result =
      Except.error PyErr.unboundLocalCfg :=
  ⟨by decide, by decide⟩

/-- C2 (amended): for every call whose config does not supply log_path
(supplying it crashes earlier with UnboundLocalError) and whose merged
script_name is absent (None) or the empty string, setup_logger raises the
ConfigurationError, and the whole call has performed no filesystem mutation
of its own and has not attached or removed any sink: the logger state is
exactly the pre-call state and the only effect is the retention-cleaner
invocation that has already happened. -/
theorem C2_validation_no_side_effects (envLoad : Option String) (heap : DLHeap)
    (config : Option Dict) (now : Timestamp) (st : LoggerState)
    (hnc : cleanerArgCrashes config = false)
    (hmiss : dictLookup (mergedConfig envLoad config) "script_name" =
        some Value.none ∨
      dictLookup (mergedConfig envLoad config) "script_name" =
        some (Value.str "")) :
    setup_logger envLoad heap config now true st =
      { effects := [Effect.cleanLogs (retentionRoot envLoad)], state := st,
        result := Except.error PyErr.configError } := by
  have ht : ((dictLookup (mergedConfig envLoad config) "script_name").getD
      Value.none).truthy = false := by
    rcases hmiss with h | h <;> rw [h] <;> rfl
  rw [setup_logger]
  simp [hnc, ht]

/-- C2 witness: the empty-string script_name run, from an untouched state. -/
theorem C2_witness :
    cleanerArgCrashes (some cfgEmptyName) = false ∧
    dictLookup (mergedConfig Option.none (some cfgEmptyName)) "script_name" =
      some (Value.str "") ∧
    setup_logger Option.none heap0 (some cfgEmptyName) t0 true st0 =
      { effects := [Effect.cleanLogs (retentionRoot Option.none)], state := st0,
        result := Except.error PyErr.configError } :=
  ⟨by decide, by decide,
    C2_validation_no_side_effects Option.none heap0 (some cfgEmptyName) t0 st0
      (by decide) (Or.inr (by decide))⟩

/-- C3 counterexample: under the defaults the worked example produces exactly
the log_dir and log_file the claim names, but both are relative path strings
(log_path defaults to the relative "logs"), refuting the claim's assertion
that both returned paths are absolute. -/
theorem C3_counterexample :
    (infoOf (setup_logger Option.none heap0 (some cfgSvc) t0 true st0)).log_dir =
      "logs/svc/20240305/14" ∧
    (infoOf (setup_logger Option.none heap0 (some cfgSvc) t0 true st0)).log_file =
      "logs/svc/20240305/14/2207.log" ∧
    isAbs (infoOf (setup_logger Option.none heap0 (some cfgSvc) t0 true st0)).log_dir =
      false ∧
    isAbs (infoOf (setup_logger Option.none heap0 (some cfgSvc) t0 true st0)).log_file =
      false :=
  ⟨by decide, by decide, by decide, by decide⟩

/-- C3 (amended): every successful call returns log_dir equal to log_path
joined with script_name, then the date_format rendering, then the
time_format rendering of the current time, and log_file equal to log_dir
joined with the file_format rendering plus ".log", and creates both the log
root and log_dir before the file sink is opened. The returned paths are path
strings rooted at log_path and are not in general absolute (they are
relative whenever log_path is, as under the default "logs"). -/
theorem C3_paths (envLoad : Option String) (heap : DLHeap)
    (config : Option Dict) (now : Timestamp) (st : LoggerState)
    (info : SetupInfo)
    (h : (setup_logger envLoad heap config now true st).result =
      Except.ok info) :
    info.log_dir =
      joinOne (joinOne (joinOne (cfgStr (mergedConfig envLoad config) "log_path")
          (cfgStr (mergedConfig envLoad config) "script_name"))
        (strftime now (cfgStr (mergedConfig envLoad config) "date_format")))
        (strftime now (cfgStr (mergedConfig envLoad config) "time_format")) ∧
    info.log_file = joinOne info.log_dir
      (strftime now (cfgStr (mergedConfig envLoad config) "file_format") ++
        ".log") ∧
    mkdirBefore (cfgStr (mergedConfig envLoad config) "log_path")
      (setup_logger envLoad heap config now true st).effects = true ∧
    mkdirBefore info.log_dir
      (setup_logger envLoad heap config now true st).effects = true := by
  obtain ⟨-, -, -, heq, hinfo⟩ := setup_ok_shape _ _ _ _ _ _ _ h
  subst hinfo
  rw [heq]
  refine ⟨rfl, rfl, ?_, ?_⟩
  · exact (mkdirBefore_successOutcome envLoad heap config now).1
  · exact (mkdirBefore_successOutcome envLoad heap config now).2

/-- C3 witness: the worked example as a successful run, with its log_dir
created before the file sink opens. -/
theorem C3_witness :
    (setup_logger Option.none heap0 (some cfgSvc) t0 true st0).result =
      Except.ok (infoOf (setup_logger Option.none heap0 (some cfgSvc) t0 true st0)) ∧
    mkdirBefore (infoOf (setup_logger Option.none heap0 (some cfgSvc) t0 true st0)).log_dir
      (setup_logger Option.none heap0 (some cfgSvc) t0 true st0).effects = true :=
  ⟨by decide,
    (C3_paths Option.none heap0 (some cfgSvc) t0 st0
      (infoOf (setup_logger Option.none heap0 (some cfgSvc) t0 true st0))
      (by decide)).2.2.2⟩

/-- C4 counterexample: a successful call whose config carries the
unrecognized key "bogus" returns a merged config that still contains
"bogus", although "bogus" is no recognized option (it is absent from
DEFAULT_CONFIG) — refuting "no keys present beyond the recognized
options". -/
theorem C4_counterexample :
    (setup_logger Option.none heap0 (some cfgBogus) t0 true st0).result =
      Except.ok (infoOf (setup_logger Option.none heap0 (some cfgBogus) t0 true st0)) ∧
    dictHasKey (infoOf (setup_logger Option.none heap0 (some cfgBogus) t0 true st0)).config
      "bogus" = true ∧
    dictHasKey (DEFAULT_CONFIG Option.none) "bogus" = false :=
  ⟨by decide, by decide, by decide⟩

/-- C4 (amended): for every successful call the returned merged config maps
each key the caller supplied — recognized or not — to the caller's value,
and every other key to DEFAULT_CONFIG's value; no key is dropped. In
particular a caller-supplied disabled_loggers replaces the default wholesale
(the merged entry is exactly the caller's value, never a union), but
caller-supplied unrecognized keys are retained as well, so the merged config
is not limited to the recognized options. -/
theorem C4_merge (envLoad : Option String) (heap : DLHeap) (d : Dict)
    (now : Timestamp) (st : LoggerState) (info : SetupInfo) (k : String)
    (hnd : (d.map Prod.fst).Nodup)
    (h : (setup_logger envLoad heap (some d) now true st).result =
      Except.ok info) :
    dictLookup info.config k =
      if dictHasKey d k then dictLookup d k
      else dictLookup (DEFAULT_CONFIG envLoad) k := by
  obtain ⟨-, -, -, -, hinfo⟩ := setup_ok_shape _ _ _ _ _ _ _ h
  subst hinfo
  show dictLookup (mergedConfig envLoad (some d)) k = _
  rw [mergedConfig]
  by_cases he : d.isEmpty
  · have hd : d = [] := List.isEmpty_iff.mp he
    subst hd
    simp [dictHasKey, dictLookup]
  · simp only [he, if_false]
    exact dictUpdate_lookup d k (DEFAULT_CONFIG envLoad) hnd

/-- C4 witness: a caller-supplied disabled_loggers (reference 1) survives the
merge wholesale. -/
theorem C4_witness :
    (cfgWholesale.map Prod.fst).Nodup ∧
    (setup_logger Option.none heap0 (some cfgWholesale) t0 true st0).result =
      Except.ok (infoOf (setup_logger Option.none heap0 (some cfgWholesale) t0 true st0)) ∧
    dictLookup (infoOf (setup_logger Option.none heap0 (some cfgWholesale) t0 true st0)).config
        "disabled_loggers" =
      (if dictHasKey cfgWholesale "disabled_loggers" then
        dictLookup cfgWholesale "disabled_loggers"
      else dictLookup (DEFAULT_CONFIG Option.none) "disabled_loggers") :=
  ⟨by decide, by decide,
    C4_merge Option.none heap0 cfgWholesale t0 st0
      (infoOf (setup_logger Option.none heap0 (some cfgWholesale) t0 true st0))
      "disabled_loggers" (by decide) (by decide)⟩

/-- C5: calling setup_logger a second time in the same process leaves the
global logger holding exactly the sinks the second call attached — every
sink from the first call (and any earlier sink) is gone — and each call sets
the global minimum severity to DEBUG. -/
theorem C5_reinit (env1 env2 : Option String) (heap1 heap2 : DLHeap)
    (c1 c2 : Option Dict) (t1 t2 : Timestamp) (st : LoggerState)
    (i1 i2 : SetupInfo)
    (h1 : (setup_logger env1 heap1 c1 t1 true st).result = Except.ok i1)
    (h2 : (setup_logger env2 heap2 c2 t2 true
        (setup_logger env1 heap1 c1 t1 true st).state).result = Except.ok i2) :
    (setup_logger env2 heap2 c2 t2 true
        (setup_logger env1 heap1 c1 t1 true st).state).state.handlers =
      attachedSinks (setup_logger env2 heap2 c2 t2 true
        (setup_logger env1 heap1 c1 t1 true st).state).effects ∧
    (setup_logger env2 heap2 c2 t2 true
        (setup_logger env1 heap1 c1 t1 true st).state).state.level = DEBUG ∧
    (setup_logger env1 heap1 c1 t1 true st).state.level = DEBUG := by
  obtain ⟨-, -, -, heq1, -⟩ := setup_ok_shape _ _ _ _ _ _ _ h1
  obtain ⟨-, -, -, heq2, -⟩ := setup_ok_shape _ _ _ _ _ _ _ h2
  rw [heq2, heq1]
  exact ⟨(attachedSinks_successOutcome env2 heap2 c2 t2).symm, rfl, rfl⟩

/-- C5 witness: two successful runs from a state already holding a stale
sink; after the second run the sink set is exactly what the second run
attached. -/
theorem C5_witness :
    (setup_logger Option.none heap0 (some cfgAlpha) t0 true stStale).result =
      Except.ok (infoOf (setup_logger Option.none heap0 (some cfgAlpha) t0 true stStale)) ∧
    (setup_logger Option.none heap0 (some cfgBeta) t0 true
        (setup_logger Option.none heap0 (some cfgAlpha) t0 true stStale).state).result =
      Except.ok (infoOf (setup_logger Option.none heap0 (some cfgBeta) t0 true
        (setup_logger Option.none heap0 (some cfgAlpha) t0 true stStale).state)) ∧
    (setup_logger Option.none heap0 (some cfgBeta) t0 true
        (setup_logger Option.none heap0 (some cfgAlpha) t0 true stStale).state).state.handlers =
      attachedSinks (setup_logger Option.none heap0 (some cfgBeta) t0 true
        (setup_logger Option.none heap0 (some cfgAlpha) t0 true stStale).state).effects :=
  ⟨by decide, by decide,
    (C5_reinit Option.none Option.none heap0 heap0 (some cfgAlpha) (some cfgBeta)
      t0 t0 stStale
      (infoOf (setup_logger Option.none heap0 (some cfgAlpha) t0 true stStale))
      (infoOf (setup_logger Option.none heap0 (some cfgBeta) t0 true
        (setup_logger Option.none heap0 (some cfgAlpha) t0 true stStale).state))
      (by decide) (by decide)).1⟩

/-- C6 counterexample: with a valid config and a cleaner that raises, the
call ends with the cleaner's error instead of completing normally — the
error is not swallowed. -/
theorem C6_counterexample :
    (setup_logger Option.none heap0 (some cfgC6) t0 false st0).result =
      Except.error PyErr.cleanerError := by decide

/-- C6 (amended): there is no try/except around clean_logs, so whenever the
retention cleaner raises (on any call that reaches it, i.e. whose config
does not supply log_path), the error propagates to the caller: the run stops
right after the cleaner invocation, mutating nothing. -/
theorem C6_cleaner_error_propagates (envLoad : Option String) (heap : DLHeap)
    (config : Option Dict) (now : Timestamp) (st : LoggerState)
    (hnc : cleanerArgCrashes config = false) :
    setup_logger envLoad heap config now false st =
      { effects := [Effect.cleanLogs (retentionRoot envLoad)], state := st,
        result := Except.error PyErr.cleanerError } := by
  rw [setup_logger]
  simp [hnc]

/-- C6 witness: the propagation at a concrete valid config. -/
theorem C6_witness :
    cleanerArgCrashes (some cfgC6) = false ∧
    setup_logger Option.none heap0 (some cfgC6) t0 false st0 =
      { effects := [Effect.cleanLogs (retentionRoot Option.none)], state := st0,
        result := Except.error PyErr.cleanerError } :=
  ⟨by decide,
    C6_cleaner_error_propagates Option.none heap0 (some cfgC6) t0 st0 (by decide)⟩

/-- C7: the claim says the cleaner is invoked exactly once on every call.
When the config supplies log_path, the argument expression raises
UnboundLocalError before clean_logs is reached, so the cleaner is invoked
zero times (first two conjuncts). When the config omits log_path the cleaner
does run, before the script_name validation, even on a call that then fails
with the ConfigurationError (third conjunct), as the claim describes. -/
theorem C7_cleaner_skipped :
    (setup_logger Option.none heap0 (some cfgSupplyingLogPath2) t0 true st0).effects =
      [] ∧
    (setup_logger Option.none heap0 (some cfgSupplyingLogPath2) t0 true st0).result =
      Except.error PyErr.unboundLocalCfg ∧
    setup_logger Option.none heap0 (some cfgNoName) t0 true st0 =
      { effects := [Effect.cleanLogs "logs"], state := st0,
        result := Except.error PyErr.configError } :=
  ⟨by decide, by decide, by decide⟩

/-- C8 counterexample: with LOG_PATH reading "A" at module load and "B" at
call time, a call omitting log_path resolves the default to the cached "A",
not to the call-time "B" the claim requires. -/
theorem C8_counterexample :
    dictLookup (infoOf (setup_logger (some "A") heap0 (some cfgC8) t0 true st0)).config
        "log_path" = some (Value.str "A") ∧
    Option.getD (some "B") "logs" ≠ "A" :=
  ⟨by decide, by decide⟩

/-- C8 (amended): for every successful call whose config omits log_path, the
merged log_path is the LOG_PATH environment value read once at module load
(after dotenv.load_dotenv), defaulting to "logs" — a cached value; later
changes to the environment do not affect it. -/
theorem C8_log_path_cached_at_load (envLoad : Option String) (heap : DLHeap)
    (config : Option Dict) (now : Timestamp) (st : LoggerState)
    (info : SetupInfo)
    (hno : optHasKey config "log_path" = false)
    (h : (setup_logger envLoad heap config now true st).result =
      Except.ok info) :
    dictLookup info.config "log_path" =
      some (Value.str (envLoad.getD "logs")) := by
  obtain ⟨-, -, -, -, hinfo⟩ := setup_ok_shape _ _ _ _ _ _ _ h
  subst hinfo
  show dictLookup (mergedConfig envLoad config) "log_path" = _
  rw [mergedConfig_lookup_of_not_supplied envLoad config "log_path" hno,
    DEFAULT_CONFIG_log_path]

/-- C8 witness: the load-time value "W8" is what a log_path-omitting call
reports. -/
theorem C8_witness :
    optHasKey (some cfgC8) "log_path" = false ∧
    (setup_logger (some "W8") heap0 (some cfgC8) t0 true st0).result =
      Except.ok (infoOf (setup_logger (some "W8") heap0 (some cfgC8) t0 true st0)) ∧
    dictLookup (infoOf (setup_logger (some "W8") heap0 (some cfgC8) t0 true st0)).config
        "log_path" = some (Value.str (Option.getD (some "W8") "logs")) :=
  ⟨by decide, by decide,
    C8_log_path_cached_at_load (some "W8") heap0 (some cfgC8) t0 st0
      (infoOf (setup_logger (some "W8") heap0 (some cfgC8) t0 true st0))
      (by decide) (by decide)⟩

/-- C9 counterexample: for a caller that omits disabled_loggers, the returned
config's disabled_loggers is the very reference DEFAULT_CONFIG holds
(reference 0), and writing through that shared reference changes the table
both dereference — the returned config and the module default share mutable
state, refuting the claim. -/
theorem C9_counterexample :
    dictLookup (infoOf (setup_logger Option.none heap0 (some cfgX9) t0 true st0)).config
        "disabled_loggers" = some (Value.dictRef defaultDLRef) ∧
    dictLookup (DEFAULT_CONFIG Option.none) "disabled_loggers" =
      some (Value.dictRef defaultDLRef) ∧
    heapSet heap0 defaultDLRef "noisy" ERROR defaultDLRef ≠ heap0 defaultDLRef :=
  ⟨by decide, by decide, by decide⟩

/-- C9 (amended): the returned info is never reassigned by later module
operations and its top-level config mapping is a fresh shallow copy, but
whenever the caller does not supply disabled_loggers, the returned config's
disabled_loggers is the same dict reference as DEFAULT_CONFIG's, so the two
share mutable state: mutating the nested dict through either is visible
through the other. -/
theorem C9_disabled_loggers_alias (envLoad : Option String) (heap : DLHeap)
    (config : Option Dict) (now : Timestamp) (st : LoggerState)
    (info : SetupInfo)
    (hno : optHasKey config "disabled_loggers" = false)
    (h : (setup_logger envLoad heap config now true st).result =
      Except.ok info) :
    dictLookup info.config "disabled_loggers" =
      some (Value.dictRef defaultDLRef) ∧
    dictLookup (DEFAULT_CONFIG envLoad) "disabled_loggers" =
      some (Value.dictRef defaultDLRef) := by
  obtain ⟨-, -, -, -, hinfo⟩ := setup_ok_shape _ _ _ _ _ _ _ h
  subst hinfo
  refine ⟨?_, DEFAULT_CONFIG_disabled_loggers envLoad⟩
  show dictLookup (mergedConfig envLoad config) "disabled_loggers" = _
  rw [mergedConfig_lookup_of_not_supplied envLoad config "disabled_loggers" hno,
    DEFAULT_CONFIG_disabled_loggers]

/-- C9 witness: the aliasing at a concrete call omitting disabled_loggers. -/
theorem C9_witness :
    optHasKey (some cfgAlpha) "disabled_loggers" = false ∧
    (setup_logger Option.none heap0 (some cfgAlpha) t0 true stStale).result =
      Except.ok (infoOf (setup_logger Option.none heap0 (some cfgAlpha) t0 true stStale)) ∧
    dictLookup (infoOf (setup_logger Option.none heap0 (some cfgAlpha) t0 true stStale)).config
        "disabled_loggers" = some (Value.dictRef defaultDLRef) :=
  ⟨by decide, by decide,
    (C9_disabled_loggers_alias Option.none heap0 (some cfgAlpha) t0 stStale
      (infoOf (setup_logger Option.none heap0 (some cfgAlpha) t0 true stStale))
      (by decide) (by decide)).1⟩

/-- C10: at import time, whenever the current working directory differs from
the hardcoded WORKING_DIR, the module attempts os.chdir, and if the change
fails the import ends in SystemExit — so in a process where the directory
cannot be entered (for instance because it does not exist), the module body
never completes and setup_logger can never be reached. -/
theorem C10_chdir (cwd : String) (chdirOk : Bool) (h : cwd ≠ WORKING_DIR) :
    (moduleChdirCheck cwd chdirOk).chdirAttempted = true ∧
    (chdirOk = false →
      (moduleChdirCheck cwd chdirOk).result = ImportResult.systemExit) := by
  cases chdirOk <;> simp [moduleChdirCheck, h]

/-- C10 witness: a POSIX working directory, where the chdir to the Windows
path fails. -/
theorem C10_witness :
    "/home/user" ≠ WORKING_DIR ∧
    (moduleChdirCheck "/home/user" false).chdirAttempted = true ∧
    (moduleChdirCheck "/home/user" false).result = ImportResult.systemExit := by
  refine ⟨by decide, ?_, ?_⟩
  · exact (C10_chdir "/home/user" false (by decide)).1
  · exact (C10_chdir "/home/user" false (by decide)).2 rfl
